import Mathlib

/-!
Verification of the spawn request gate in
`src/agents/tools/sessions-spawn-tool.ts` (the `execute` function of the
`sessions_spawn` tool, called `handleSpawn` in the specification).

The gate's external collaborators (`loadConfig`, `loadModelCatalog`,
`buildAllowedModelSet`, `parseModelRef`, `modelKey`, `spawnSubagentDirect`)
are not part of the source tree; following the specification's own guidance
they are modelled as externally injected capabilities (an `Env` record), and
the observable calls the gate makes to them are recorded in an effect trace.
-/

/-- A JavaScript number: either a finite value (modelled as a rational,
which contains every finite double exactly) or one of the non-finite
values `NaN`, `Infinity`, `-Infinity`. -/
inductive JSNum where
  | finite (q : ℚ)
  | nan
  | inf
  | negInf
deriving DecidableEq

/-- `Number.isFinite` on a `JSNum`. -/
def JSNum.isFinite : JSNum → Bool
  | JSNum.finite _ => true
  | _ => false

/-- An untrusted JavaScript value as it can appear in a field of the raw
`args` record (`Record<string, unknown>`): only the shapes the gate ever
inspects are distinguished; every other value is `other`. -/
inductive JSValue where
  | str (s : String)
  | num (n : JSNum)
  | bool (b : Bool)
  | other
deriving DecidableEq

/-- The raw parameter record received by the gate. A field holds `none`
when the key is absent from the record. -/
structure Params where
  task : Option JSValue := none
  label : Option JSValue := none
  agentId : Option JSValue := none
  model : Option JSValue := none
  thinking : Option JSValue := none
  runTimeoutSeconds : Option JSValue := none
  timeoutSeconds : Option JSValue := none
  thread : Option JSValue := none
  mode : Option JSValue := none
  cleanup : Option JSValue := none
deriving DecidableEq

/-- JavaScript `String.prototype.trim`: removes whitespace from both ends
of the string (modelled over the string's character list). -/
def jsTrim (s : String) : String :=
  String.mk
    (((s.data.dropWhile Char.isWhitespace).reverse.dropWhile
      Char.isWhitespace).reverse)

/-- Modelled from the spec: `readStringParam(params, key)` is imported from
`./common.js`, which is not in the source tree. Per the spec, the optional
string parameters (`agentId`, `model`, `thinking`) are passed through
verbatim when present and non-empty, and treated as absent when missing,
non-string, or empty/whitespace-only. -/
def readStringParam (v : Option JSValue) : Option String :=
  match v with
  | some (JSValue.str s) => if jsTrim s = "" then none else some s
  | _ => none

/-- Modelled from the spec: the `required: true` call of `readStringParam`
used for `task`. Per the spec, a missing, empty or whitespace-only `task`
fails with `InvalidInput`; the failure is reported as a structured error
whose message names the missing field, never as an unstructured exception. -/
def readRequiredStringParam (v : Option JSValue) (key : String) :
    Except String String :=
  match v with
  | some (JSValue.str s) =>
      if jsTrim s = "" then Except.error (key ++ " is required") else Except.ok s
  | _ => Except.error (key ++ " is required")

/-- The timeout candidate: `runTimeoutSeconds` when it is a number,
otherwise the deprecated alias `timeoutSeconds` when it is a number,
otherwise absent (lines 56-61 of the source). -/
def timeoutSecondsCandidate (p : Params) : Option JSNum :=
  match p.runTimeoutSeconds with
  | some (JSValue.num n) => some n
  | _ =>
    match p.timeoutSeconds with
    | some (JSValue.num n) => some n
    | _ => none

/-- The normalized timeout: `Math.max(0, Math.floor(x))` when the candidate
is a finite number, absent otherwise (lines 62-65 of the source). -/
def normalizedRunTimeoutSeconds (p : Params) : Option ℤ :=
  match timeoutSecondsCandidate p with
  | some (JSNum.finite q) => some (max 0 ⌊q⌋)
  | some _ => none
  | none => none

/-- The canonical spawn request forwarded to `spawnSubagentDirect`
(lines 98-109 of the source). `mode` and `cleanup` keep their string
values, as in the source. -/
structure SpawnRequest where
  task : String
  label : Option String
  agentId : Option String
  model : Option String
  thinking : Option String
  runTimeoutSeconds : Option ℤ
  thread : Bool
  mode : Option String
  cleanup : String
  expectsCompletionMessage : Bool
deriving DecidableEq

/-- The spawn request the gate constructs from normalized parameters, with
`task` the value produced by the required read. Mirrors lines 48-65 and
98-109 of the source: `label` is trimmed and empty-to-absent, `mode` is
kept only when exactly "run" or "session", `cleanup` is "keep" or "delete"
with default "keep", `thread` is true only for the literal boolean true. -/
def buildRequest (params : Params) (task : String) : SpawnRequest :=
  let label : String :=
    match params.label with
    | some (JSValue.str s) => jsTrim s
    | _ => ""
  let mode : Option String :=
    if params.mode = some (JSValue.str "run") then some "run"
    else if params.mode = some (JSValue.str "session") then some "session"
    else none
  let cleanup : String :=
    if params.cleanup = some (JSValue.str "keep") then "keep"
    else if params.cleanup = some (JSValue.str "delete") then "delete"
    else "keep"
  { task := task
    label := if label = "" then none else some label
    agentId := readStringParam params.agentId
    model := readStringParam params.model
    thinking := readStringParam params.thinking
    runTimeoutSeconds := normalizedRunTimeoutSeconds params
    thread := params.thread = some (JSValue.bool true)
    mode := mode
    cleanup := cleanup
    expectsCompletionMessage := true }

/-- The allowed-model set produced by `buildAllowedModelSet`: either it
allows any model, or it carries the canonical keys in set iteration
order. -/
structure AllowedModelSet where
  allowAny : Bool
  allowedKeys : List String
deriving DecidableEq

/-- A parsed model reference: `(provider, model)`. -/
structure ModelRef where
  provider : String
  model : String
deriving DecidableEq

/-- The external collaborators of the gate, injected as capabilities:
the allowed-model set built from configuration, catalog and the default
provider; the model reference parser (already applied to the default
provider); the canonical model key function; and the spawning service,
whose result type `ρ` is opaque to the gate. -/
structure Env (ρ : Type) where
  buildAllowedModelSet : AllowedModelSet
  parseModelRef : String → Option ModelRef
  modelKey : String → String → String
  spawnSubagentDirect : SpawnRequest → ρ

/-- An observable call the gate makes to an external collaborator. -/
inductive Effect where
  | loadConfig
  | loadModelCatalog
  | parseModelRef (raw : String)
  | spawnSubagentDirect (req : SpawnRequest)
deriving DecidableEq

/-- The structured result returned by the gate: either the JSON error
payload `{status: "error", error: msg}` or the spawning service's result
passed through unchanged (wrapped by `jsonResult` in both cases). -/
inductive GateResult (ρ : Type) where
  | error (msg : String)
  | ok (r : ρ)

/-- Whether a gate result is the error payload. -/
def GateResult.isError {ρ : Type} : GateResult ρ → Bool
  | GateResult.error _ => true
  | GateResult.ok _ => false

/-- The spawn request gate (the tool's `execute` function, lines 46-124 of
the source), with the calls to external collaborators recorded in order in
an effect trace. When a model override is present the configuration and the
model catalog are loaded and the allowed set consulted; `parseModelRef`
runs only when the set is restrictive; the spawning service runs only when
validation passes. -/
def handleSpawn {ρ : Type} (env : Env ρ) (params : Params) :
    GateResult ρ × List Effect :=
  match readRequiredStringParam params.task "task" with
  | Except.error msg => (GateResult.error msg, [])
  | Except.ok task =>
    let req := buildRequest params task
    match readStringParam params.model with
    | none =>
        (GateResult.ok (env.spawnSubagentDirect req),
         [Effect.spawnSubagentDirect req])
    | some m =>
        if env.buildAllowedModelSet.allowAny then
          (GateResult.ok (env.spawnSubagentDirect req),
           [Effect.loadConfig, Effect.loadModelCatalog,
            Effect.spawnSubagentDirect req])
        else
          match env.parseModelRef m with
          | none =>
              (GateResult.error ("invalid model ref: " ++ m),
               [Effect.loadConfig, Effect.loadModelCatalog,
                Effect.parseModelRef m])
          | some parsed =>
              let key := env.modelKey parsed.provider parsed.model
              if env.buildAllowedModelSet.allowedKeys.contains key then
                (GateResult.ok (env.spawnSubagentDirect req),
                 [Effect.loadConfig, Effect.loadModelCatalog,
                  Effect.parseModelRef m, Effect.spawnSubagentDirect req])
              else
                (GateResult.error
                  ("model not allowed: " ++ key ++ ". Allowed models: " ++
                    String.intercalate ", "
                      env.buildAllowedModelSet.allowedKeys),
                 [Effect.loadConfig, Effect.loadModelCatalog,
                  Effect.parseModelRef m])


/-- A concrete environment whose allowed-model set allows any model, used
to instantiate the theorems at concrete inputs. -/
def envAny : Env Nat :=
  { buildAllowedModelSet := { allowAny := true, allowedKeys := [] }
    parseModelRef := fun _ => none
    modelKey := fun a b => a ++ "/" ++ b
    spawnSubagentDirect := fun _ => 0 }

/-- A concrete restrictive environment: only the canonical key
"prov/alpha" is allowed, and the override string "bad" fails to parse;
every other string parses with provider "prov". -/
def envStrict : Env Nat :=
  { buildAllowedModelSet := { allowAny := false, allowedKeys := ["prov/alpha"] }
    parseModelRef := fun s =>
      if s = "bad" then none else some { provider := "prov", model := s }
    modelKey := fun a b => a ++ "/" ++ b
    spawnSubagentDirect := fun _ => 0 }

/-- Concrete input: `task` whitespace-only. -/
def pBlankTask : Params := { task := some (JSValue.str "   ") }

/-- Concrete input: a negative timeout through the legacy alias. -/
def pNegTimeout : Params :=
  { timeoutSeconds := some (JSValue.num (JSNum.finite (-3/2))) }

/-- Concrete input: a fractional timeout. -/
def pFracTimeout : Params :=
  { runTimeoutSeconds := some (JSValue.num (JSNum.finite (459/10))) }

/-- Concrete input: a NaN timeout. -/
def pNanTimeout : Params :=
  { runTimeoutSeconds := some (JSValue.num JSNum.nan) }

/-- Concrete input: both timeout fields carry numbers. -/
def pBothTimeouts : Params :=
  { runTimeoutSeconds := some (JSValue.num (JSNum.finite 7))
    timeoutSeconds := some (JSValue.num (JSNum.finite 9)) }

/-- Concrete input: a valid task and nothing else. -/
def pTaskOnly : Params := { task := some (JSValue.str "do it") }

/-- Concrete input: a valid task and the unparsable model override "bad". -/
def pBadModel : Params :=
  { task := some (JSValue.str "do it"), model := some (JSValue.str "bad") }

/-- Concrete input: a valid task and the model override "beta", which
parses to the disallowed key "prov/beta". -/
def pBetaModel : Params :=
  { task := some (JSValue.str "do it"), model := some (JSValue.str "beta") }

/-- Concrete input: a valid task and the model override "alpha", which
parses to the allowed key "prov/alpha". -/
def pAlphaModel : Params :=
  { task := some (JSValue.str "do it"), model := some (JSValue.str "alpha") }

/-- Concrete input: a valid task and an arbitrary model override. -/
def pAnyModel : Params :=
  { task := some (JSValue.str "do it")
    model := some (JSValue.str "anything") }

/-- Concrete input: a valid task and the unexpected mode "loop". -/
def pLoopMode : Params :=
  { task := some (JSValue.str "t"), mode := some (JSValue.str "loop") }

/-- Concrete input: a valid task and an unexpected cleanup value. -/
def pWeirdCleanup : Params :=
  { task := some (JSValue.str "t"), cleanup := some (JSValue.str "weird") }

/-- The end-to-end scenario input of the spec: task "summarize doc", mode
"session", cleanup "delete", runTimeoutSeconds 45.9, no model. -/
def scenarioParams : Params :=
  { task := some (JSValue.str "summarize doc")
    mode := some (JSValue.str "session")
    cleanup := some (JSValue.str "delete")
    runTimeoutSeconds := some (JSValue.num (JSNum.finite (459/10))) }

/-- The spawn request the scenario input should produce. -/
def scenarioRequest : SpawnRequest :=
  { task := "summarize doc"
    label := none
    agentId := none
    model := none
    thinking := none
    runTimeoutSeconds := some 45
    thread := false
    mode := some "session"
    cleanup := "delete"
    expectsCompletionMessage := true }

/-- Any request handed to the spawning service is the one built by
`buildRequest` from the raw parameters and the successfully read task. -/
theorem spawned_request_shape {ρ : Type} (env : Env ρ) (p : Params)
    (req : SpawnRequest)
    (h : Effect.spawnSubagentDirect req ∈ (handleSpawn env p).2) :
    ∃ t, readRequiredStringParam p.task "task" = Except.ok t ∧
      req = buildRequest p t := by
  unfold handleSpawn at h
  split at h
  · simp at h
  · rename_i t heq
    refine ⟨t, heq, ?_⟩
    split at h
    · simp at h; exact h
    · split at h
      · simp at h; exact h
      · split at h
        · simp at h
        · dsimp only at h
          split at h
          · simp at h; exact h
          · simp at h

/-- C1: for every input whose `task` field is missing, empty, or
whitespace-only, the gate returns the structured error result (with an
empty effect trace, so no exception propagates and no collaborator runs),
and the error message mentions the missing field `task`. -/
theorem c1_missing_task_structured_error {ρ : Type} (env : Env ρ)
    (p : Params)
    (h : p.task = none ∨ ∃ s, p.task = some (JSValue.str s) ∧ jsTrim s = "") :
    handleSpawn env p = (GateResult.error ("task" ++ " is required"), []) ∧
    ∃ a b, "task" ++ " is required" = a ++ "task" ++ b := by
  have hrt : readRequiredStringParam p.task "task" =
      Except.error ("task" ++ " is required") := by
    rcases h with h | ⟨s, hs, hts⟩
    · rw [h]; rfl
    · rw [hs]; simp [readRequiredStringParam, hts]
  refine ⟨?_, "", " is required", rfl⟩
  unfold handleSpawn
  rw [hrt]

/-- C1 witness: the whitespace-only task input produces the structured
error, with an empty effect trace. -/
theorem c1_witness :
    handleSpawn envAny pBlankTask =
      (GateResult.error ("task" ++ " is required"), []) :=
  (c1_missing_task_structured_error envAny pBlankTask
    (Or.inr ⟨"   ", rfl, by decide⟩)).1

/-- C2: timeout normalization. A finite negative candidate is clamped to
0; a finite non-negative candidate is floored; a non-finite candidate (NaN
or either infinity) makes the forwarded field absent; and when both
`runTimeoutSeconds` and `timeoutSeconds` carry numbers, the candidate is
the value of `runTimeoutSeconds`. -/
theorem c2_timeout_normalization :
    (∀ (p : Params) (q : ℚ),
        timeoutSecondsCandidate p = some (JSNum.finite q) → q < 0 →
        normalizedRunTimeoutSeconds p = some 0) ∧
    (∀ (p : Params) (q : ℚ),
        timeoutSecondsCandidate p = some (JSNum.finite q) → 0 ≤ q →
        normalizedRunTimeoutSeconds p = some ⌊q⌋) ∧
    (∀ (p : Params) (n : JSNum),
        timeoutSecondsCandidate p = some n → n.isFinite = false →
        normalizedRunTimeoutSeconds p = none) ∧
    (∀ (p : Params) (n m : JSNum),
        p.runTimeoutSeconds = some (JSValue.num n) →
        p.timeoutSeconds = some (JSValue.num m) →
        timeoutSecondsCandidate p = some n) := by
  refine ⟨?_, ?_, ?_, ?_⟩
  · intro p q hc hq
    have hfl : ⌊q⌋ < 0 := Int.floor_lt.mpr (by exact_mod_cast hq)
    unfold normalizedRunTimeoutSeconds
    rw [hc]
    simp [max_eq_left hfl.le]
  · intro p q hc hq
    have hfl : (0 : ℤ) ≤ ⌊q⌋ := Int.floor_nonneg.mpr hq
    unfold normalizedRunTimeoutSeconds
    rw [hc]
    simp [max_eq_right hfl]
  · intro p n hc hn
    unfold normalizedRunTimeoutSeconds
    rw [hc]
    cases n with
    | finite q => simp [JSNum.isFinite] at hn
    | nan => rfl
    | inf => rfl
    | negInf => rfl
  · intro p n m hn hm
    unfold timeoutSecondsCandidate
    rw [hn]

/-- C2 witness: the negative timeout is clamped to 0, the fractional one
is floored, the NaN one is dropped, and with both fields present the new
name wins. -/
theorem c2_witness :
    normalizedRunTimeoutSeconds pNegTimeout = some 0 ∧
    normalizedRunTimeoutSeconds pFracTimeout = some ⌊(459/10 : ℚ)⌋ ∧
    normalizedRunTimeoutSeconds pNanTimeout = none ∧
    timeoutSecondsCandidate pBothTimeouts = some (JSNum.finite 7) :=
  ⟨c2_timeout_normalization.1 pNegTimeout (-3/2) rfl (by norm_num),
   c2_timeout_normalization.2.1 pFracTimeout (459/10) rfl (by norm_num),
   c2_timeout_normalization.2.2.1 pNanTimeout JSNum.nan rfl rfl,
   c2_timeout_normalization.2.2.2 pBothTimeouts (JSNum.finite 7)
     (JSNum.finite 9) rfl rfl⟩

/-- C3: with a restrictive allowlist and a model override that fails to
parse, the gate returns the structured error "invalid model ref: " followed
by the raw override string, and the spawning service is never invoked. -/
theorem c3_invalid_model_ref {ρ : Type} (env : Env ρ) (p : Params)
    (t m : String)
    (ht : readRequiredStringParam p.task "task" = Except.ok t)
    (hm : readStringParam p.model = some m)
    (hA : env.buildAllowedModelSet.allowAny = false)
    (hp : env.parseModelRef m = none) :
    (handleSpawn env p).1 = GateResult.error ("invalid model ref: " ++ m) ∧
    ∀ req, Effect.spawnSubagentDirect req ∉ (handleSpawn env p).2 := by
  unfold handleSpawn
  rw [ht]
  dsimp only
  rw [hm, hA]
  dsimp only
  rw [hp]
  simp

/-- C3 witness: the override "bad" under the restrictive environment. -/
theorem c3_witness :
    (handleSpawn envStrict pBadModel).1 =
      GateResult.error ("invalid model ref: " ++ "bad") :=
  (c3_invalid_model_ref envStrict pBadModel "do it" "bad" rfl rfl rfl
    rfl).1

/-- C4: with a restrictive allowlist and a model override that parses to a
canonical key outside the allowed set, the gate returns the structured
error enumerating the allowed keys (joined with ", " in set iteration
order), and the spawning service is never invoked. -/
theorem c4_model_not_allowed {ρ : Type} (env : Env ρ) (p : Params)
    (t m : String) (parsed : ModelRef)
    (ht : readRequiredStringParam p.task "task" = Except.ok t)
    (hm : readStringParam p.model = some m)
    (hA : env.buildAllowedModelSet.allowAny = false)
    (hp : env.parseModelRef m = some parsed)
    (hk : env.buildAllowedModelSet.allowedKeys.contains
        (env.modelKey parsed.provider parsed.model) = false) :
    (handleSpawn env p).1 = GateResult.error
      ("model not allowed: " ++ env.modelKey parsed.provider parsed.model ++
        ". Allowed models: " ++
        String.intercalate ", " env.buildAllowedModelSet.allowedKeys) ∧
    ∀ req, Effect.spawnSubagentDirect req ∉ (handleSpawn env p).2 := by
  unfold handleSpawn
  rw [ht]
  dsimp only
  rw [hm, hA]
  dsimp only
  rw [hp]
  dsimp only
  rw [hk]
  simp

/-- C4 witness: the override "beta" resolves to "prov/beta", which is not
in the allowed set {"prov/alpha"}. -/
theorem c4_witness :
    (handleSpawn envStrict pBetaModel).1 = GateResult.error
      ("model not allowed: " ++ envStrict.modelKey "prov" "beta" ++
        ". Allowed models: " ++
        String.intercalate ", "
          envStrict.buildAllowedModelSet.allowedKeys) :=
  (c4_model_not_allowed envStrict pBetaModel "do it" "beta"
    { provider := "prov", model := "beta" } rfl rfl rfl rfl rfl).1

/-- C5: when the `model` field is absent from the input, the gate loads
neither the configuration nor the model catalog, and every request handed
to the spawning service has `model` absent. -/
theorem c5_no_model_no_loads {ρ : Type} (env : Env ρ) (p : Params)
    (h : p.model = none) :
    Effect.loadConfig ∉ (handleSpawn env p).2 ∧
    Effect.loadModelCatalog ∉ (handleSpawn env p).2 ∧
    ∀ req, Effect.spawnSubagentDirect req ∈ (handleSpawn env p).2 →
      req.model = none := by
  have hm : readStringParam p.model = none := by rw [h]; rfl
  unfold handleSpawn
  cases hrt : readRequiredStringParam p.task "task" with
  | error msg => simp
  | ok t =>
    dsimp only
    rw [hm]
    refine ⟨by simp, by simp, ?_⟩
    intro req hr
    simp at hr
    rw [hr]
    simp [buildRequest, hm]

/-- C5 witness: the model-free input triggers no configuration or catalog
load. -/
theorem c5_witness :
    Effect.loadConfig ∉ (handleSpawn envAny pTaskOnly).2 ∧
    Effect.loadModelCatalog ∉ (handleSpawn envAny pTaskOnly).2 :=
  ⟨(c5_no_model_no_loads envAny pTaskOnly rfl).1,
   (c5_no_model_no_loads envAny pTaskOnly rfl).2.1⟩

/-- C6: the `mode` field of any forwarded request is `some s` exactly when
the raw value was the string `s` and `s` is "run" or "session"; and an
unexpected mode value never causes rejection — the error-ness of the
result is the same as with `mode` absent. -/
theorem c6_mode_leniency {ρ : Type} (env : Env ρ) (p : Params) :
    (∀ req s, Effect.spawnSubagentDirect req ∈ (handleSpawn env p).2 →
      (req.mode = some s ↔
        ((s = "run" ∨ s = "session") ∧ p.mode = some (JSValue.str s)))) ∧
    GateResult.isError (handleSpawn env p).1 =
      GateResult.isError (handleSpawn env { p with mode := none }).1 := by
  constructor
  · intro req s hr
    obtain ⟨t, -, rfl⟩ := spawned_request_shape env p req hr
    show (buildRequest p t).mode = some s ↔ _
    simp only [buildRequest]
    by_cases h1 : p.mode = some (JSValue.str "run") <;>
      by_cases h2 : p.mode = some (JSValue.str "session") <;>
      simp_all
    aesop
  · have h1 : ({ p with mode := none } : Params).task = p.task := rfl
    have h2 : ({ p with mode := none } : Params).model = p.model := rfl
    cases hrt : readRequiredStringParam p.task "task" with
    | error msg =>
      simp only [handleSpawn, h1, h2, hrt]
    | ok t =>
      simp only [handleSpawn, h1, h2, hrt]
      cases hm : readStringParam p.model with
      | none => rfl
      | some m =>
        dsimp only
        by_cases hA : env.buildAllowedModelSet.allowAny
        · simp only [hA, if_true]
          rfl
        · simp only [hA, Bool.false_eq_true, if_false]
          cases hp : env.parseModelRef m with
          | none => rfl
          | some parsed =>
            dsimp only
            by_cases hk : env.buildAllowedModelSet.allowedKeys.contains
                (env.modelKey parsed.provider parsed.model)
            · simp only [hk, if_true]
              rfl
            · simp only [hk, Bool.false_eq_true, if_false]

/-- C6 witness: with raw mode "loop" the forwarded mode is not "run" (the
right side of the equivalence is false at a concrete request). -/
theorem c6_witness :
    (buildRequest pLoopMode "t").mode = some "run" ↔
      (("run" = "run" ∨ "run" = "session") ∧
        pLoopMode.mode = some (JSValue.str "run")) :=
  (c6_mode_leniency envAny pLoopMode).1 (buildRequest pLoopMode "t") "run"
    (by decide)

/-- C7: the `cleanup` field of any forwarded request is "delete" exactly
when the raw value was the string "delete"; every other raw value,
including an absent field, resolves to "keep". -/
theorem c7_cleanup_default {ρ : Type} (env : Env ρ) (p : Params) :
    ∀ req, Effect.spawnSubagentDirect req ∈ (handleSpawn env p).2 →
      ((req.cleanup = "delete" ↔ p.cleanup = some (JSValue.str "delete")) ∧
       (p.cleanup ≠ some (JSValue.str "delete") → req.cleanup = "keep")) := by
  intro req hr
  obtain ⟨t, -, rfl⟩ := spawned_request_shape env p req hr
  show ((buildRequest p t).cleanup = "delete" ↔ _) ∧ _
  simp only [buildRequest]
  by_cases h1 : p.cleanup = some (JSValue.str "keep")
  · have h2 : p.cleanup ≠ some (JSValue.str "delete") := by
      rw [h1]
      simp
    simp [h1, h2]
  · by_cases h2 : p.cleanup = some (JSValue.str "delete")
    · simp [h1, h2]
    · simp [h1, h2]

/-- C7 witness: the unexpected cleanup value "weird" resolves to "keep" on
the forwarded request. -/
theorem c7_witness :
    (buildRequest pWeirdCleanup "t").cleanup = "keep" :=
  (c7_cleanup_default envAny pWeirdCleanup (buildRequest pWeirdCleanup "t")
    (by decide)).2 (by decide)

/-- C8: when the allowed-model set allows any model, a present (non-empty)
model override is forwarded to the spawning service as-is, the override is
never parsed, no membership check occurs, and the spawning service is
invoked. -/
theorem c8_allow_any_skips_validation {ρ : Type} (env : Env ρ) (p : Params)
    (t m : String)
    (ht : readRequiredStringParam p.task "task" = Except.ok t)
    (hm : readStringParam p.model = some m)
    (hA : env.buildAllowedModelSet.allowAny = true) :
    Effect.spawnSubagentDirect (buildRequest p t) ∈ (handleSpawn env p).2 ∧
    (buildRequest p t).model = some m ∧
    (∀ s, Effect.parseModelRef s ∉ (handleSpawn env p).2) ∧
    (handleSpawn env p).1 =
      GateResult.ok (env.spawnSubagentDirect (buildRequest p t)) := by
  unfold handleSpawn
  rw [ht]
  dsimp only
  rw [hm, hA]
  refine ⟨by simp, ?_, by simp, rfl⟩
  simp [buildRequest, hm]

/-- C8 witness: under the allow-any environment the override "anything" is
forwarded unvalidated and the service runs. -/
theorem c8_witness :
    Effect.spawnSubagentDirect (buildRequest pAnyModel "do it") ∈
      (handleSpawn envAny pAnyModel).2 ∧
    (buildRequest pAnyModel "do it").model = some "anything" :=
  ⟨(c8_allow_any_skips_validation envAny pAnyModel "do it" "anything"
      rfl rfl rfl).1,
   (c8_allow_any_skips_validation envAny pAnyModel "do it" "anything"
      rfl rfl rfl).2.1⟩

/-- C9: the end-to-end scenario. The input with task "summarize doc", mode
"session", cleanup "delete" and runTimeoutSeconds 45.9 under an allow-any
policy and no model produces exactly one spawning-service call, whose
request carries task "summarize doc", mode "session", cleanup "delete",
runTimeoutSeconds 45, thread false and expectsCompletionMessage true, and
whose return value is passed through unchanged as the gate's result. -/
theorem c9_scenario {ρ : Type} (env : Env ρ)
    (_hA : env.buildAllowedModelSet.allowAny = true) :
    handleSpawn env scenarioParams =
      (GateResult.ok (env.spawnSubagentDirect scenarioRequest),
       [Effect.spawnSubagentDirect scenarioRequest]) ∧
    scenarioRequest.task = "summarize doc" ∧
    scenarioRequest.mode = some "session" ∧
    scenarioRequest.cleanup = "delete" ∧
    scenarioRequest.runTimeoutSeconds = some 45 ∧
    scenarioRequest.thread = false ∧
    scenarioRequest.expectsCompletionMessage = true := by
  refine ⟨?_, rfl, rfl, rfl, rfl, rfl, rfl⟩
  have hreq : buildRequest scenarioParams "summarize doc" =
      scenarioRequest := by
    simp [buildRequest, scenarioParams, scenarioRequest,
      normalizedRunTimeoutSeconds, timeoutSecondsCandidate, readStringParam]
    norm_num
  unfold handleSpawn
  rw [show readRequiredStringParam scenarioParams.task "task" =
      Except.ok "summarize doc" from rfl]
  dsimp only
  rw [show readStringParam scenarioParams.model = none from rfl, hreq]

/-- C9 witness: the scenario at the concrete allow-any environment. -/
theorem c9_witness :
    handleSpawn envAny scenarioParams =
      (GateResult.ok (envAny.spawnSubagentDirect scenarioRequest),
       [Effect.spawnSubagentDirect scenarioRequest]) :=
  (c9_scenario envAny rfl).1

/-- C10: when a model override passes restrictive-allowlist validation,
the request handed to the spawning service carries the original raw
override string (not the canonical key computed during validation). -/
theorem c10_forwards_raw_model {ρ : Type} (env : Env ρ) (p : Params)
    (t m : String) (parsed : ModelRef)
    (ht : readRequiredStringParam p.task "task" = Except.ok t)
    (hm : readStringParam p.model = some m)
    (hA : env.buildAllowedModelSet.allowAny = false)
    (hp : env.parseModelRef m = some parsed)
    (hk : env.buildAllowedModelSet.allowedKeys.contains
        (env.modelKey parsed.provider parsed.model) = true) :
    Effect.spawnSubagentDirect (buildRequest p t) ∈ (handleSpawn env p).2 ∧
    (buildRequest p t).model = some m ∧
    (handleSpawn env p).1 =
      GateResult.ok (env.spawnSubagentDirect (buildRequest p t)) := by
  unfold handleSpawn
  rw [ht]
  dsimp only
  rw [hm, hA]
  dsimp only
  rw [hp]
  dsimp only
  rw [hk]
  refine ⟨by simp, ?_, rfl⟩
  simp [buildRequest, hm]

/-- C10 witness: the override "alpha" passes validation (its canonical key
is "prov/alpha") and the forwarded model is the raw string "alpha", which
differs from the canonical key. -/
theorem c10_witness :
    (buildRequest pAlphaModel "do it").model = some "alpha" ∧
    envStrict.modelKey "prov" "alpha" ≠ "alpha" :=
  ⟨(c10_forwards_raw_model envStrict pAlphaModel "do it" "alpha"
      { provider := "prov", model := "alpha" } rfl rfl rfl rfl rfl).2.1,
   by decide⟩
